import Mathlib

/-!
# CppAsync, `impl/Common.h`: the error carrier `ut::Error`

`Common.h` defines `ut::Error` twice, selected by `UT_NO_EXCEPTIONS`:

* with `UT_NO_EXCEPTIONS` (namespace `ut.NoExceptions` below) it is a class
  wrapping one value of the user type `UT_CUSTOM_ERROR_TYPE`;
* otherwise (namespace `ut.Exceptions` below) it is `std::exception_ptr`.

`UT_CUSTOM_ERROR_TYPE` comes from `Config.h` and is chosen by the user, so the
embedding takes the type and the operations the header calls on it as a
parameter (`CodeType`).  The header calls three things on the type: the
value-initialisation `value_type()`, the comparison `a.get() == b.get()`, and
moves (`std::move` into a constructor or an assignment).  A move between two
objects hands the value of the source to the destination; what stays behind in
the source is up to the type (`movedFrom`), and so is what an object holds
after it is move-assigned from itself (`selfMoved`).  Whether a move of the
type raises an exception is up to the type as well (`moveCtorRaises`,
`moveAssignRaises`); the `static_assert` of the header admits only types whose
moves never do (`nothrow_move`).
-/

namespace ut

namespace NoExceptions

/-- The user type `UT_CUSTOM_ERROR_TYPE` as the header sees it:
`dflt` is `value_type()`, `eq x y` is `x == y` with the operator of the type,
`movedFrom x` is what a moved-from object that held `x` holds afterwards,
`selfMoved x` is what an object that held `x` holds after `o = std::move(o)`,
`moveCtorRaises x` tells whether move-constructing from an object holding `x`
raises an exception, `moveAssignRaises y x` whether move-assigning an object
holding `x` to an object holding `y` does.  The field `nothrow_move` is the
`static_assert` of the class: `is_nothrow_move_constructible<value_type>` and
`is_nothrow_move_assignable<value_type>`, "Error type may not throw on move
construction or assignment". -/
structure CodeType (Code : Type) where
  dflt : Code
  eq : Code → Code → Bool
  movedFrom : Code → Code
  selfMoved : Code → Code
  moveCtorRaises : Code → Bool
  moveAssignRaises : Code → Code → Bool
  nothrow_move : (∀ x, moveCtorRaises x = false) ∧ (∀ y x, moveAssignRaises y x = false)

/-- The class `ut::Error`: its only member is `value_type mValue`. -/
structure Error (Code : Type) where
  mValue : Code

/-- The accessor `get()`, both overloads: `return mValue;`. -/
def Error.get {Code : Type} (e : Error Code) : Code :=
  e.mValue

/-- The constructor `Error()`: `mValue(value_type())`. -/
def Error.ctor {Code : Type} (T : CodeType Code) : Error Code :=
  ⟨T.dflt⟩

/-- The constructor `Error(value_type value)`: `mValue(std::move(value))`. -/
def Error.ctorValue {Code : Type} (value : Code) : Error Code :=
  ⟨value⟩

/-- The constructor `Error(Error&& other)`: `mValue(std::move(other.mValue))`.
Returns the new carrier and `other` as the move leaves it. -/
def Error.ctorMove {Code : Type} (T : CodeType Code) (other : Error Code) :
    Error Code × Error Code :=
  (⟨other.mValue⟩, ⟨T.movedFrom other.mValue⟩)

/-- The call of the constructor `Error(Error&& other)` with its outcome: `none`
when the move constructor of `value_type` raises an exception (which the
`noexcept` constructor cannot let through), otherwise the new carrier and
`other` as the move leaves it. -/
def Error.ctorMoveCall {Code : Type} (T : CodeType Code) (other : Error Code) :
    Option (Error Code × Error Code) :=
  if T.moveCtorRaises other.mValue then none else some (Error.ctorMove T other)

/-- The assignment `operator=(Error&& other)` between two distinct objects:
`mValue = std::move(other.mValue); return *this;`.
Returns `*this` after the assignment and `other` as the move leaves it. -/
def Error.assignMove {Code : Type} (T : CodeType Code) (_self other : Error Code) :
    Error Code × Error Code :=
  (⟨other.mValue⟩, ⟨T.movedFrom other.mValue⟩)

/-- The assignment `operator=(Error&& other)` on carriers in memory, where
`mem` gives the carrier stored at each address, `self` is the address of
`*this` and `other` the address of the argument.  The operator has no
self-assignment check, so with `self = other` the statement
`mValue = std::move(other.mValue)` move-assigns the member from itself and the
carrier ends up holding what `value_type` leaves after a self-move; with two
distinct addresses it is `assignMove`.  The outcome is `none` when the move
assignment of `value_type` raises an exception, otherwise the memory after the
call. -/
def Error.assignMoveAt {Code : Type} (T : CodeType Code) (mem : Nat → Error Code)
    (self other : Nat) : Option (Nat → Error Code) :=
  if T.moveAssignRaises (mem self).mValue (mem other).mValue then none
  else if self = other then
    some (Function.update mem self ⟨T.selfMoved (mem self).mValue⟩)
  else
    some (Function.update
      (Function.update mem other (Error.assignMove T (mem self) (mem other)).2)
      self (Error.assignMove T (mem self) (mem other)).1)

/-- The free function `operator==(const Error& a, const Error& b)`:
`return a.get() == b.get();`. -/
def opEq {Code : Type} (T : CodeType Code) (a b : Error Code) : Bool :=
  T.eq a.get b.get

/-- The free function `operator!=(const Error& a, const Error& b)`:
`return !(a == b);`. -/
def opNe {Code : Type} (T : CodeType Code) (a b : Error Code) : Bool :=
  !(opEq T a b)

/-- The free function `isNil(const Error& error)`: `return error == Error();`. -/
def isNil {Code : Type} (T : CodeType Code) (error : Error Code) : Bool :=
  opEq T error (Error.ctor T)

/-- The call `isNil(error)` in state-passing form: the returned flag together
with the carrier after the call.  The parameter is a `const Error&`, read
through `get() const`, so the carrier after the call is the carrier before. -/
def isNilCall {Code : Type} (T : CodeType Code) (error : Error Code) :
    Bool × Error Code :=
  (isNil T error, error)

/-- The free function `reset(Error& error)`: `error = Error();`.
The temporary `Error()` is move-assigned into `error` and then dropped;
the result is `error` after the call. -/
def reset {Code : Type} (T : CodeType Code) (error : Error Code) : Error Code :=
  (Error.assignMove T error (Error.ctor T)).1

/-! ### Code types used to evaluate the header on concrete inputs -/

/-- The type `int` (or an enumeration with a zero enumerator) as
`UT_CUSTOM_ERROR_TYPE`: `int()` is `0`, `==` is equality of the numbers, and a
moved-from `int` keeps its value. -/
def intCode : CodeType Int where
  dflt := 0
  eq := fun x y => decide (x = y)
  movedFrom := fun x => x
  selfMoved := fun x => x
  moveCtorRaises := fun _ => false
  moveAssignRaises := fun _ _ => false
  nothrow_move := ⟨fun _ => rfl, fun _ _ => rfl⟩

/-- The values of a number type that has a not-a-number value, such as
`double`: a number or `nan`. -/
inductive Num where
  | val (n : Int)
  | nan
  deriving DecidableEq

/-- The comparison `==` of `Num`: two numbers compare by value, and `nan`
compares unequal to everything, itself included. -/
def Num.eq : Num → Num → Bool
  | .val a, .val b => decide (a = b)
  | _, _ => false

/-- The type `double` as `UT_CUSTOM_ERROR_TYPE`, numbers abstracted to `Num`:
`double()` is zero. -/
def doubleCode : CodeType Num where
  dflt := .val 0
  eq := Num.eq
  movedFrom := fun x => x
  selfMoved := fun x => x
  moveCtorRaises := fun _ => false
  moveAssignRaises := fun _ _ => false
  nothrow_move := ⟨fun _ => rfl, fun _ _ => rfl⟩

/-- A class wrapping a `double` whose default constructor stores not-a-number
(an unset reading) and whose `operator==` compares the stored numbers. -/
def unsetCode : CodeType Num where
  dflt := .nan
  eq := Num.eq
  movedFrom := fun x => x
  selfMoved := fun x => x
  moveCtorRaises := fun _ => false
  moveAssignRaises := fun _ _ => false
  nothrow_move := ⟨fun _ => rfl, fun _ _ => rfl⟩

/-- A class wrapping a number whose `operator==` compares with a tolerance:
two values are equal when they differ by at most one. -/
def tolCode : CodeType Int where
  dflt := 0
  eq := fun x y => decide ((x - y).natAbs ≤ 1)
  movedFrom := fun x => x
  selfMoved := fun x => x
  moveCtorRaises := fun _ => false
  moveAssignRaises := fun _ _ => false
  nothrow_move := ⟨fun _ => rfl, fun _ _ => rfl⟩

/-- The type `std::string` of libstdc++ as `UT_CUSTOM_ERROR_TYPE`, a string
being the list of its character codes: `std::string()` is the empty string,
`==` compares the contents, and the moves are `noexcept`.  Move construction
and move assignment leave the source empty; move assignment ends by clearing
its argument also when the argument is the target itself, so a string
move-assigned from itself ends up empty. -/
def stringCode : CodeType (List Nat) where
  dflt := []
  eq := fun x y => decide (x = y)
  movedFrom := fun _ => []
  selfMoved := fun _ => []
  moveCtorRaises := fun _ => false
  moveAssignRaises := fun _ _ => false
  nothrow_move := ⟨fun _ => rfl, fun _ _ => rfl⟩

/-- A memory of `std::string` carriers in which every address holds a carrier
built from the two-character string with the character codes 104, 105. -/
def memHi : Nat → Error (List Nat) :=
  fun _ => Error.ctorValue [104, 105]

/-- A memory of `int` carriers in which the carrier at address `n` is
`Error(n)`. -/
def memCount : Nat → Error Int :=
  fun n => Error.ctorValue (n : Int)

end NoExceptions

namespace Exceptions

/-- Modelled from the spec: the type `std::exception_ptr` behind
`using Error = std::exception_ptr;` is not part of the header.  The spec
describes it as an opaque shareable handle to a captured exception object with
a "no exception" sentinel and sentinel/handle identity equality: `none` is the
null handle, `some i` refers to the captured exception object number `i`. -/
abbrev Error := Option Nat

/-- Modelled from the spec: a default-constructed `std::exception_ptr`, which is
also what `nullptr` converts to, is the null handle. -/
def nullptr : Error := none

/-- Modelled from the spec: `operator==` of `std::exception_ptr`, handle
identity: both null or both referring to the same exception object. -/
def opEq (a b : Error) : Bool :=
  decide (a = b)

/-- The free function `isNil(const Error& eptr)`: `return eptr == nullptr;`. -/
def isNil (eptr : Error) : Bool :=
  opEq eptr nullptr

/-- The free function `reset(Error& eptr)`: `eptr = nullptr;`.
The result is `eptr` after the call. -/
def reset (_eptr : Error) : Error :=
  nullptr

end Exceptions

end ut

open ut

/-! ## Construction and the nil test -/

/-- C1, as stated, fails: with `int` as the code type, the carrier built from
the value `0` is nil, since `0 == int()`. -/
theorem C1_nil_of_default_value :
    NoExceptions.isNil NoExceptions.intCode (NoExceptions.Error.ctorValue 0) = true := by
  decide

/-- C1, amended: a carrier built from a cause is not nil.  Without exceptions,
for every code type and every value `x` of it for which `x == value_type()` is
false, `isNil(Error(x))` is false; with exceptions, for every captured
exception object `i`, `isNil` of the handle that refers to it is false. -/
theorem C1_not_nil_of_value {Code : Type} (T : NoExceptions.CodeType Code) (x : Code)
    (hx : T.eq x T.dflt = false) :
    NoExceptions.isNil T (NoExceptions.Error.ctorValue x) = false ∧
    (∀ i : Nat, Exceptions.isNil (some i) = false) := by
  refine ⟨?_, fun i => ?_⟩
  · simpa [NoExceptions.isNil, NoExceptions.opEq, NoExceptions.Error.get,
      NoExceptions.Error.ctor, NoExceptions.Error.ctorValue] using hx
  · simp [Exceptions.isNil, Exceptions.opEq, Exceptions.nullptr]

/-- C1, amended, at `int` and the value `7`. -/
theorem C1_not_nil_of_value_witness :
    NoExceptions.intCode.eq 7 NoExceptions.intCode.dflt = false ∧
    (NoExceptions.isNil NoExceptions.intCode (NoExceptions.Error.ctorValue 7) = false ∧
     (∀ i : Nat, Exceptions.isNil (some i) = false)) :=
  ⟨by decide, C1_not_nil_of_value NoExceptions.intCode 7 (by decide)⟩

/-- C2, as stated, fails: for the code type whose default value is
not-a-number, `value_type() == value_type()` is false, so the
default-constructed carrier is not nil. -/
theorem C2_default_not_nil_unset :
    NoExceptions.isNil NoExceptions.unsetCode
      (NoExceptions.Error.ctor NoExceptions.unsetCode) = false := by
  decide

/-- C2, amended: for every code type with `value_type() == value_type()` true,
`isNil(Error())` is true; and with exceptions, `isNil` of the null handle is
true. -/
theorem C2_default_is_nil {Code : Type} (T : NoExceptions.CodeType Code)
    (hd : T.eq T.dflt T.dflt = true) :
    NoExceptions.isNil T (NoExceptions.Error.ctor T) = true ∧
    Exceptions.isNil Exceptions.nullptr = true := by
  refine ⟨?_, by decide⟩
  simpa [NoExceptions.isNil, NoExceptions.opEq, NoExceptions.Error.get,
    NoExceptions.Error.ctor] using hd

/-- C2, amended, at `double`, whose default value zero equals itself. -/
theorem C2_default_is_nil_witness :
    NoExceptions.doubleCode.eq NoExceptions.doubleCode.dflt
      NoExceptions.doubleCode.dflt = true ∧
    (NoExceptions.isNil NoExceptions.doubleCode
      (NoExceptions.Error.ctor NoExceptions.doubleCode) = true ∧
     Exceptions.isNil Exceptions.nullptr = true) :=
  ⟨by decide, C2_default_is_nil NoExceptions.doubleCode (by decide)⟩

/-! ## Reset -/

/-- C3, as stated, fails: for the code type whose default value is
not-a-number, a carrier that held the number `3` is not nil after `reset`. -/
theorem C3_reset_not_nil_unset :
    NoExceptions.isNil NoExceptions.unsetCode
      (NoExceptions.reset NoExceptions.unsetCode
        (NoExceptions.Error.ctorValue (NoExceptions.Num.val 3))) = false := by
  decide

/-- C3, amended: for every code type with `value_type() == value_type()` true
and every carrier `c`, `isNil` is true after `reset(c)`; and with exceptions,
`isNil` is true after `reset` for every handle. -/
theorem C3_reset_is_nil {Code : Type} (T : NoExceptions.CodeType Code)
    (hd : T.eq T.dflt T.dflt = true) :
    (∀ c : NoExceptions.Error Code,
      NoExceptions.isNil T (NoExceptions.reset T c) = true) ∧
    (∀ e : Exceptions.Error, Exceptions.isNil (Exceptions.reset e) = true) := by
  refine ⟨fun c => ?_, fun _ => rfl⟩
  simpa [NoExceptions.isNil, NoExceptions.opEq, NoExceptions.Error.get,
    NoExceptions.Error.ctor, NoExceptions.reset, NoExceptions.Error.assignMove] using hd

/-- C3, amended, at `int`, whose default value `0` equals itself. -/
theorem C3_reset_is_nil_witness :
    NoExceptions.intCode.eq NoExceptions.intCode.dflt NoExceptions.intCode.dflt = true ∧
    ((∀ c : NoExceptions.Error Int,
      NoExceptions.isNil NoExceptions.intCode
        (NoExceptions.reset NoExceptions.intCode c) = true) ∧
     (∀ e : Exceptions.Error, Exceptions.isNil (Exceptions.reset e) = true)) :=
  ⟨by decide, C3_reset_is_nil NoExceptions.intCode (by decide)⟩

/-- C9: `reset` is idempotent.  Without exceptions, for every code type and
carrier `c`, resetting twice leaves the same carrier as resetting once, and in
both cases the held value is `value_type()`; with exceptions, resetting a
handle twice leaves the same handle as resetting it once. -/
theorem C9_reset_idempotent {Code : Type} (T : NoExceptions.CodeType Code)
    (c : NoExceptions.Error Code) (e : Exceptions.Error) :
    NoExceptions.reset T (NoExceptions.reset T c) = NoExceptions.reset T c ∧
    (NoExceptions.reset T c).get = T.dflt ∧
    (NoExceptions.reset T (NoExceptions.reset T c)).get = T.dflt ∧
    Exceptions.reset (Exceptions.reset e) = Exceptions.reset e :=
  ⟨rfl, rfl, rfl, rfl⟩

/-! ## Reading the value back, and moves -/

/-- C4: for every code type and value `x`, `Error(x).get()` is `x`. -/
theorem C4_get_ctorValue {Code : Type} (x : Code) :
    (NoExceptions.Error.ctorValue x).get = x :=
  rfl

/-- C8: for every code type and carrier `c`, `isNil(c)` is true exactly when
`c.get() == value_type()` is true under the equality operator of the code
type, and the carrier after the call is the carrier before it. -/
theorem C8_isNil_iff {Code : Type} (T : NoExceptions.CodeType Code)
    (c : NoExceptions.Error Code) :
    (NoExceptions.isNil T c = true ↔ T.eq c.get T.dflt = true) ∧
    (NoExceptions.isNilCall T c).1 = NoExceptions.isNil T c ∧
    (NoExceptions.isNilCall T c).2 = c :=
  ⟨Iff.rfl, rfl, rfl⟩

/-- C10, as stated, fails: with `std::string` as the code type and a carrier
holding the two characters 104, 105 at address `0`, the assignment
`d = std::move(s)` with `d` and `s` both that carrier returns and leaves it
holding the empty string, not the value the source held. -/
theorem C10_self_move_loses_value_string :
    (NoExceptions.memHi 0).get = [104, 105] ∧
    (NoExceptions.Error.assignMoveAt NoExceptions.stringCode
        NoExceptions.memHi 0 0).map (fun m => (m 0).get) = some [] := by
  decide

/-- C10, amended: for every code type, memory `mem` of carriers and addresses
`d ≠ s`, with `v` the value held by the carrier at `s`: the call
move-constructing a carrier from the one at `s` returns a carrier that holds
`v`; the call `d = std::move(s)` returns and afterwards the carrier at `d`
holds `v`, whatever it held before; and move assignment returns for every pair
of addresses, equal ones included. -/
theorem C10_move_transfers {Code : Type} (T : NoExceptions.CodeType Code)
    (mem : Nat → NoExceptions.Error Code) (d s : Nat) (hds : d ≠ s) :
    (NoExceptions.Error.ctorMoveCall T (mem s)).map (fun r => r.1.get)
      = some (mem s).get ∧
    (NoExceptions.Error.assignMoveAt T mem d s).map (fun m => (m d).get)
      = some (mem s).get ∧
    (∀ a b : Nat, (NoExceptions.Error.assignMoveAt T mem a b).isSome = true) := by
  refine ⟨?_, ?_, fun a b => ?_⟩
  · simp [NoExceptions.Error.ctorMoveCall, T.nothrow_move.1,
      NoExceptions.Error.ctorMove, NoExceptions.Error.get]
  · simp [NoExceptions.Error.assignMoveAt, T.nothrow_move.2, hds,
      NoExceptions.Error.assignMove, NoExceptions.Error.get]
  · by_cases hab : a = b <;>
      simp [NoExceptions.Error.assignMoveAt, T.nothrow_move.2, hab]

/-- C10, amended, at `int` with the carrier at each address `n` holding `n`,
the destination at address `0` and the source at address `1`. -/
theorem C10_move_transfers_witness :
    (0 : Nat) ≠ 1 ∧
    ((NoExceptions.Error.ctorMoveCall NoExceptions.intCode
        (NoExceptions.memCount 1)).map (fun r => r.1.get)
      = some (NoExceptions.memCount 1).get ∧
     (NoExceptions.Error.assignMoveAt NoExceptions.intCode
        NoExceptions.memCount 0 1).map (fun m => (m 0).get)
      = some (NoExceptions.memCount 1).get ∧
     (∀ a b : Nat, (NoExceptions.Error.assignMoveAt NoExceptions.intCode
        NoExceptions.memCount a b).isSome = true)) :=
  ⟨by decide,
    C10_move_transfers NoExceptions.intCode NoExceptions.memCount 0 1 (by decide)⟩

/-! ## Equality of carriers -/

/-- C5, as stated, fails: with `double` as the code type, the carrier holding
not-a-number does not equal itself, so `operator==` on carriers is not
reflexive for every code type. -/
theorem C5_not_reflexive_double :
    NoExceptions.opEq NoExceptions.doubleCode
      (NoExceptions.Error.ctorValue NoExceptions.Num.nan)
      (NoExceptions.Error.ctorValue NoExceptions.Num.nan) = false := by
  decide

/-- C5, amended: for every code type whose own `==` is reflexive, symmetric and
transitive, `operator==` on carriers is reflexive, symmetric and transitive;
and with exceptions, `operator==` on handles is reflexive, symmetric and
transitive. -/
theorem C5_opEq_equivalence {Code : Type} (T : NoExceptions.CodeType Code)
    (hrefl : ∀ x, T.eq x x = true)
    (hsymm : ∀ x y, T.eq x y = true → T.eq y x = true)
    (htrans : ∀ x y z, T.eq x y = true → T.eq y z = true → T.eq x z = true) :
    ((∀ a : NoExceptions.Error Code, NoExceptions.opEq T a a = true) ∧
     (∀ a b : NoExceptions.Error Code,
        NoExceptions.opEq T a b = true → NoExceptions.opEq T b a = true) ∧
     (∀ a b c : NoExceptions.Error Code,
        NoExceptions.opEq T a b = true → NoExceptions.opEq T b c = true →
        NoExceptions.opEq T a c = true)) ∧
    ((∀ p : Exceptions.Error, Exceptions.opEq p p = true) ∧
     (∀ p q : Exceptions.Error,
        Exceptions.opEq p q = true → Exceptions.opEq q p = true) ∧
     (∀ p q r : Exceptions.Error,
        Exceptions.opEq p q = true → Exceptions.opEq q r = true →
        Exceptions.opEq p r = true)) := by
  refine ⟨⟨fun a => hrefl a.get, fun a b h => hsymm a.get b.get h,
    fun a b c hab hbc => htrans a.get b.get c.get hab hbc⟩, ?_, ?_, ?_⟩
  · intro p
    simp [Exceptions.opEq]
  · intro p q h
    simp only [Exceptions.opEq, decide_eq_true_eq] at h ⊢
    exact h.symm
  · intro p q r hpq hqr
    simp only [Exceptions.opEq, decide_eq_true_eq] at hpq hqr ⊢
    exact hpq.trans hqr

/-- C5, amended, at `int`, whose `==` is equality of the numbers. -/
theorem C5_opEq_equivalence_witness :
    ((∀ a : NoExceptions.Error Int,
        NoExceptions.opEq NoExceptions.intCode a a = true) ∧
     (∀ a b : NoExceptions.Error Int,
        NoExceptions.opEq NoExceptions.intCode a b = true →
        NoExceptions.opEq NoExceptions.intCode b a = true) ∧
     (∀ a b c : NoExceptions.Error Int,
        NoExceptions.opEq NoExceptions.intCode a b = true →
        NoExceptions.opEq NoExceptions.intCode b c = true →
        NoExceptions.opEq NoExceptions.intCode a c = true)) ∧
    ((∀ p : Exceptions.Error, Exceptions.opEq p p = true) ∧
     (∀ p q : Exceptions.Error,
        Exceptions.opEq p q = true → Exceptions.opEq q p = true) ∧
     (∀ p q r : Exceptions.Error,
        Exceptions.opEq p q = true → Exceptions.opEq q r = true →
        Exceptions.opEq p r = true)) :=
  C5_opEq_equivalence NoExceptions.intCode
    (fun x => by simp [NoExceptions.intCode])
    (fun x y h => by
      simp only [NoExceptions.intCode, decide_eq_true_eq] at h ⊢
      exact h.symm)
    (fun x y z hxy hyz => by
      simp only [NoExceptions.intCode, decide_eq_true_eq] at hxy hyz ⊢
      exact hxy.trans hyz)

/-- C6, as stated, fails: for the code type that compares with a tolerance of
one, the carrier holding `1` is nil, the carrier holding `2` is not, and the
two are equal. -/
theorem C6_nil_equals_non_nil_tol :
    NoExceptions.isNil NoExceptions.tolCode (NoExceptions.Error.ctorValue 1) = true ∧
    NoExceptions.isNil NoExceptions.tolCode (NoExceptions.Error.ctorValue 2) = false ∧
    NoExceptions.opEq NoExceptions.tolCode
      (NoExceptions.Error.ctorValue 1) (NoExceptions.Error.ctorValue 2) = true := by
  decide

/-- C6, amended: for every code type whose own `==` is symmetric and
transitive, a nil carrier `a` and a non-nil carrier `b` satisfy neither
`a == b` nor `b == a`; and with exceptions, a nil handle and a non-nil handle
satisfy neither `p == q` nor `q == p`. -/
theorem C6_nil_ne_non_nil {Code : Type} (T : NoExceptions.CodeType Code)
    (hsymm : ∀ x y, T.eq x y = true → T.eq y x = true)
    (htrans : ∀ x y z, T.eq x y = true → T.eq y z = true → T.eq x z = true)
    (a b : NoExceptions.Error Code)
    (ha : NoExceptions.isNil T a = true) (hb : NoExceptions.isNil T b = false) :
    (NoExceptions.opEq T a b = false ∧ NoExceptions.opEq T b a = false) ∧
    (∀ p q : Exceptions.Error,
      Exceptions.isNil p = true → Exceptions.isNil q = false →
      Exceptions.opEq p q = false ∧ Exceptions.opEq q p = false) := by
  have ha1 : T.eq a.get T.dflt = true := ha
  have hb1 : T.eq b.get T.dflt = false := hb
  have key : T.eq b.get a.get = false := by
    cases hba : T.eq b.get a.get with
    | false => rfl
    | true =>
      have := htrans b.get a.get T.dflt hba ha1
      rw [hb1] at this
      exact absurd this (by decide)
  refine ⟨⟨?_, key⟩, ?_⟩
  · cases hab : NoExceptions.opEq T a b with
    | false => rfl
    | true =>
      have := hsymm a.get b.get hab
      rw [key] at this
      exact absurd this (by decide)
  · intro p q hp hq
    simp only [Exceptions.isNil, Exceptions.opEq, decide_eq_true_eq,
      decide_eq_false_iff_not] at hp hq ⊢
    subst hp
    exact ⟨fun h => hq h.symm, hq⟩

/-- C6, amended, at `int` with the nil carrier `Error()` and the carrier
`Error(5)`. -/
theorem C6_nil_ne_non_nil_witness :
    (NoExceptions.opEq NoExceptions.intCode
        (NoExceptions.Error.ctor NoExceptions.intCode)
        (NoExceptions.Error.ctorValue 5) = false ∧
     NoExceptions.opEq NoExceptions.intCode
        (NoExceptions.Error.ctorValue 5)
        (NoExceptions.Error.ctor NoExceptions.intCode) = false) ∧
    (∀ p q : Exceptions.Error,
      Exceptions.isNil p = true → Exceptions.isNil q = false →
      Exceptions.opEq p q = false ∧ Exceptions.opEq q p = false) :=
  C6_nil_ne_non_nil NoExceptions.intCode
    (fun x y h => by
      simp only [NoExceptions.intCode, decide_eq_true_eq] at h ⊢
      exact h.symm)
    (fun x y z hxy hyz => by
      simp only [NoExceptions.intCode, decide_eq_true_eq] at hxy hyz ⊢
      exact hxy.trans hyz)
    (NoExceptions.Error.ctor NoExceptions.intCode)
    (NoExceptions.Error.ctorValue 5)
    (by decide) (by decide)

/-- C7, as stated, fails: with `int` as the code type and `E1 = 0`, the
carriers `a = Error(0)` and `b = Error(0)` are equal, `a` is nil after
`reset(a)`, and `a == b` is still true after the reset. -/
theorem C7_still_equal_after_reset_zero :
    NoExceptions.opEq NoExceptions.intCode
      (NoExceptions.Error.ctorValue 0) (NoExceptions.Error.ctorValue 0) = true ∧
    NoExceptions.isNil NoExceptions.intCode
      (NoExceptions.reset NoExceptions.intCode (NoExceptions.Error.ctorValue 0)) = true ∧
    NoExceptions.opEq NoExceptions.intCode
      (NoExceptions.reset NoExceptions.intCode (NoExceptions.Error.ctorValue 0))
      (NoExceptions.Error.ctorValue 0) = true := by
  decide

/-- C7, amended: for every code type and value `E1` with `E1 == E1` true,
`value_type() == value_type()` true and `value_type() == E1` false: with
`a = Error(E1)` and `b = Error(E1)`, `a == b` is true, and after `reset(a)`,
`isNil(a)` is true and `a == b` is false. -/
theorem C7_scenario {Code : Type} (T : NoExceptions.CodeType Code) (E1 : Code)
    (hE : T.eq E1 E1 = true) (hd : T.eq T.dflt T.dflt = true)
    (hne : T.eq T.dflt E1 = false) :
    NoExceptions.opEq T (NoExceptions.Error.ctorValue E1)
      (NoExceptions.Error.ctorValue E1) = true ∧
    NoExceptions.isNil T
      (NoExceptions.reset T (NoExceptions.Error.ctorValue E1)) = true ∧
    NoExceptions.opEq T (NoExceptions.reset T (NoExceptions.Error.ctorValue E1))
      (NoExceptions.Error.ctorValue E1) = false :=
  ⟨hE, hd, hne⟩

/-- C7, amended, at `int` and `E1 = 3`. -/
theorem C7_scenario_witness :
    NoExceptions.opEq NoExceptions.intCode (NoExceptions.Error.ctorValue 3)
      (NoExceptions.Error.ctorValue 3) = true ∧
    NoExceptions.isNil NoExceptions.intCode
      (NoExceptions.reset NoExceptions.intCode (NoExceptions.Error.ctorValue 3)) = true ∧
    NoExceptions.opEq NoExceptions.intCode
      (NoExceptions.reset NoExceptions.intCode (NoExceptions.Error.ctorValue 3))
      (NoExceptions.Error.ctorValue 3) = false :=
  C7_scenario NoExceptions.intCode 3 (by decide) (by decide) (by decide)
